import Mathlib

/-!
# Verification of the paginated blog-listing core

Shallow embedding of the pagination / query / presentation core of a
Next.js + Prisma blog listing:

* `src/src/app/page.tsx` (`Home`): page-parameter parsing, offset and
  total-page computation, the count query and the paginated fetch query;
* the `Pagination` component: previous/next navigation links;
* `src/src/components/home/PostList.tsx` (`PostList`): the
  "Showing X-Y of Z posts" summary and the empty state.

JavaScript numbers are modelled as `Int` with `Option Int` where `NaN`
can arise (`none` = `NaN`); the relational store is modelled as a list of
`Post` rows plus a list of `Category` rows, and the declarative Prisma
query (`where published`, `orderBy createdAt desc`, `skip`, `take`,
`include category`) as filter / stable sort / drop / take / lookup.
-/

/-- A `Category` row (Prisma model `Category`). -/
structure Category where
  id : String
  name : String
  slug : String
  createdAt : Nat
  updatedAt : Nat
deriving DecidableEq

/-- A `Post` row (Prisma model `Post`); `createdAt` / `updatedAt` are
timestamps modelled as `Nat`. -/
structure Post where
  id : String
  title : String
  slug : String
  excerpt : Option String
  content : String
  published : Bool
  views : Nat
  likes : Nat
  categoryId : Option String
  createdAt : Nat
  updatedAt : Nat
deriving DecidableEq

/-- A fetched row: a `Post` together with its included `Category`
(`include: { category: true }` in the `findMany` call), `none` when the
post has no category. -/
structure PostWithCategory where
  post : Post
  category : Option Category
deriving DecidableEq

/-! ## JavaScript primitives used by `Home` -/

/-- Whitespace skipped by JavaScript `parseInt` (the common subset:
space, tab, newline, carriage return). -/
def jsWhitespace (c : Char) : Bool :=
  c == ' ' || c == '\t' || c == '\n' || c == '\r'

/-- Value of a list of decimal digit characters, most significant first. -/
def digitsVal (l : List Char) : Nat :=
  l.foldl (fun a c => a * 10 + (c.toNat - '0'.toNat)) 0

/-- After the optional sign, `parseInt` takes the longest prefix of
decimal digits; no digits at all gives `NaN` (modelled as `none`). -/
def signedDigits (sign : Int) (l : List Char) : Option Int :=
  let ds := l.takeWhile Char.isDigit
  if ds = [] then none else some (sign * (digitsVal ds : Int))

/-- After whitespace trimming: read an optional sign, then the longest
prefix of base-10 digits. -/
def jsParseIntChars : List Char → Option Int
  | [] => none
  | c :: rest =>
    if c = '-' then signedDigits (-1) rest
    else if c = '+' then signedDigits 1 rest
    else signedDigits 1 (c :: rest)

/-- JavaScript `parseInt(s, 10)`: skip leading whitespace, read an
optional sign, then the longest prefix of base-10 digits; `none` models
the `NaN` result. -/
def jsParseInt (s : String) : Option Int :=
  jsParseIntChars (s.data.dropWhile jsWhitespace)

/-! ## `Home` (src/src/app/page.tsx) -/

/-- Embeds `const POSTS_PER_PAGE = 6` (page.tsx line 113). -/
def POSTS_PER_PAGE : Nat := 6

/-- Embeds `resolvedSearchParams.page || "1"` (page.tsx line 133): the
empty string is falsy in JavaScript, so both an absent parameter and the
empty string fall back to the default page string. -/
def pageParamOrDefault (page? : Option String) : String :=
  match page? with
  | none => "1"
  | some s => if s = "" then "1" else s

/-- Embeds `const currentPage = Math.max(1, parseInt(page, 10))` with
the defaulted page string (page.tsx lines 131-134).  `Math.max(1, NaN) = NaN`, so a
`NaN` parse result propagates (modelled by `Option.map`). -/
def homeCurrentPage (page? : Option String) : Option Int :=
  (jsParseInt (pageParamOrDefault page?)).map (fun n => max 1 n)

/-- Embeds `const offset = (currentPage - 1) * POSTS_PER_PAGE`
(page.tsx line 153); again `NaN` propagates. -/
def homeOffset (page? : Option String) : Option Int :=
  (homeCurrentPage page?).map (fun c => (c - 1) * (POSTS_PER_PAGE : Int))

/-- Rows matching `where: { published: true }`. -/
def publishedPosts (db : List Post) : List Post :=
  db.filter (fun p => p.published)

/-- Embeds `db.post.count` over published rows (page.tsx lines
169-173). -/
def countPublished (db : List Post) : Nat :=
  (publishedPosts db).length

/-- Models `Math.ceil(a / b)` for natural `a` and positive natural `b`. -/
def ceilDiv (a b : Nat) : Nat :=
  (a + b - 1) / b

/-- Embeds `Math.ceil(totalPosts / POSTS_PER_PAGE)` (page.tsx line 192). -/
def totalPagesOf (totalPosts : Nat) : Nat :=
  ceilDiv totalPosts POSTS_PER_PAGE

/-- The `totalPages` value computed by `Home` for a given store. -/
def homeTotalPages (db : List Post) : Nat :=
  totalPagesOf (countPublished db)

/-- Models the descending `orderBy` on `createdAt`: row `a` may precede
row `b` when `b.createdAt ≤ a.createdAt`. -/
def byCreatedAtDesc (a b : Post) : Prop :=
  b.createdAt ≤ a.createdAt

instance : DecidableRel byCreatedAtDesc :=
  fun a b => Nat.decLe b.createdAt a.createdAt

instance : IsTotal Post byCreatedAtDesc :=
  ⟨fun a b => Nat.le_total b.createdAt a.createdAt⟩

instance : IsTrans Post byCreatedAtDesc :=
  ⟨fun _ _ _ h1 h2 => Nat.le_trans h2 h1⟩

/-- Embeds the `db.post.findMany` call of page.tsx lines 251-263, with
its `where` on published, `include` of the category, descending
`orderBy` on `createdAt`, `skip` and `take`: filter to published rows,
sort newest first (any stable sort realises the ORDER BY of the store;
ties are store-ordered), skip `skip` rows, take `take` rows, and attach
the category of each row by its `categoryId`. -/
def fetchPage (db : List Post) (cats : List Category) (skip take : Nat) :
    List PostWithCategory :=
  ((((publishedPosts db).insertionSort byCreatedAtDesc).drop skip).take take).map
    (fun p => ⟨p, cats.find? (fun c => p.categoryId == some c.id)⟩)

/-- The fetch issued by `Home` for a raw page parameter: `none` models
the request failing when the computed `skip` is `NaN` (the store client
rejects a non-integer argument). -/
def homeFetch (db : List Post) (cats : List Category) (page? : Option String) :
    Option (List PostWithCategory) :=
  (homeOffset page?).map (fun off => fetchPage db cats off.toNat POSTS_PER_PAGE)

/-! ## `Pagination` component (src/unnamed/part_000) -/

/-- One directional navigation affordance: the page it targets and
whether it is rendered disabled (a greyed `span` instead of a `Link`). -/
structure NavLink where
  target : Int
  disabled : Bool
deriving DecidableEq

/-- The rendered navigation control: previous link, "Page X of Y"
indicator, next link. -/
structure PaginationNav where
  previous : NavLink
  pageIndicator : Int × Int
  next : NavLink
deriving DecidableEq

/-- The `Pagination` component (part_000 lines 41-218): renders nothing
when `totalPages <= 1`; otherwise `isFirstPage = currentPage === 1`,
`isLastPage = currentPage >= totalPages`, `previousPage = currentPage -
1`, `nextPage = currentPage + 1`. -/
def Pagination (currentPage totalPages : Int) : Option PaginationNav :=
  if totalPages ≤ 1 then none
  else
    some ⟨⟨currentPage - 1, decide (currentPage = 1)⟩,
          (currentPage, totalPages),
          ⟨currentPage + 1, decide (totalPages ≤ currentPage)⟩⟩

/-! ## `PostList` component (src/src/components/home/PostList.tsx) -/

/-- The "Showing firstPost-lastPost of totalPosts post(s)" summary line
(PostList.tsx lines 888-890 and 944-948 of the bundled source). -/
structure Summary where
  firstPost : Int
  lastPost : Int
  totalPosts : Nat
  noun : String
deriving DecidableEq

/-- What `PostList` renders: the empty-state message, or the summary
line, the grid of cards, and the (possibly omitted) navigation. -/
inductive PostListView where
  | emptyState : PostListView
  | grid : Summary → List PostWithCategory → Option PaginationNav → PostListView
deriving DecidableEq

/-- The `PostList` component: early return of the empty state when
`posts.length === 0`; otherwise `firstPost = (currentPage - 1) *
POSTS_PER_PAGE + 1`, `lastPost = firstPost + posts.length - 1`, the
noun is the singular exactly when `totalPosts === 1`, and the `Pagination`
control is rendered with the given props. -/
def PostList (posts : List PostWithCategory) (currentPage totalPages : Int)
    (totalPosts : Nat) : PostListView :=
  if posts.length = 0 then PostListView.emptyState
  else
    let firstPost := (currentPage - 1) * (POSTS_PER_PAGE : Int) + 1
    let lastPost := firstPost + posts.length - 1
    PostListView.grid
      ⟨firstPost, lastPost, totalPosts, if totalPosts = 1 then "post" else "posts"⟩
      posts (Pagination currentPage totalPages)

/-! ## Sample store rows used by closed witnesses -/

/-- A published post with no category, created at time 10. -/
def samplePostA : Post :=
  ⟨"a", "A", "a", none, "body", true, 0, 0, none, 10, 10⟩

/-- A published post in category `"c1"`, created at time 20. -/
def samplePostB : Post :=
  ⟨"b", "B", "b", none, "body", true, 0, 0, some "c1", 20, 20⟩

/-- The category referenced by `samplePostB`. -/
def sampleCat : Category :=
  ⟨"c1", "News", "news", 0, 0⟩

/-! ## Arithmetic facts about `ceilDiv` -/

/-- A count of `ceilDiv t p` pages of size `p` covers all `t` rows. -/
theorem ceilDiv_mul_ge (t p : Nat) (hp : 0 < p) : t ≤ ceilDiv t p * p := by
  unfold ceilDiv
  have hdm := Nat.div_add_mod (t + p - 1) p
  have hmlt : (t + p - 1) % p < p := Nat.mod_lt _ hp
  rw [Nat.mul_comm]
  generalize hQ : p * ((t + p - 1) / p) = Q at hdm
  generalize hM : (t + p - 1) % p = M at hdm hmlt
  omega

/-- One page fewer than `ceilDiv t p` does not cover `t` rows. -/
theorem ceilDiv_pred_mul_lt (t p : Nat) (hp : 0 < p) (h1 : 1 ≤ ceilDiv t p) :
    (ceilDiv t p - 1) * p < t := by
  unfold ceilDiv at h1 ⊢
  have hdm := Nat.div_add_mod (t + p - 1) p
  have hmlt : (t + p - 1) % p < p := Nat.mod_lt _ hp
  have hple : p * 1 ≤ p * ((t + p - 1) / p) := Nat.mul_le_mul_left p h1
  rw [Nat.sub_mul, Nat.one_mul, Nat.mul_comm]
  generalize hQ : p * ((t + p - 1) / p) = Q at hdm hple
  generalize hM : (t + p - 1) % p = M at hdm hmlt
  omega

/-- The function `ceilDiv`, the embedding of `Math.ceil(a / b)`, is the rational
ceiling of the exact quotient. -/
theorem ceilDiv_eq_ceil (t p : Nat) (hp : 0 < p) :
    ceilDiv t p = ⌈(t : ℚ) / (p : ℚ)⌉₊ := by
  have hpQ : (0 : ℚ) < (p : ℚ) := by exact_mod_cast hp
  apply le_antisymm
  · rcases Nat.eq_zero_or_pos (ceilDiv t p) with h0 | h1
    · simp [h0]
    · have h2 : (ceilDiv t p - 1) * p < t := ceilDiv_pred_mul_lt t p hp h1
      have h3 : ((ceilDiv t p - 1 : Nat) : ℚ) < (t : ℚ) / (p : ℚ) := by
        rw [lt_div_iff₀ hpQ]
        exact_mod_cast h2
      have h4 := Nat.lt_ceil.mpr h3
      omega
  · rw [Nat.ceil_le, div_le_iff₀ hpQ]
    exact_mod_cast ceilDiv_mul_ge t p hp

/-! ## Claims -/

/-- C1 (code bug): the claim — and the spec — say every non-numeric page
parameter normalizes `currentPage` to 1 with no error.  The code computes
`Math.max(1, parseInt("abc", 10))`; parsing a non-numeric string is `NaN` and
`Math.max(1, NaN) = NaN`, so `currentPage` and the offset are `NaN`
(modelled `none`), not 1, and the fetch is issued with a non-integer
`skip`, so it fails rather than serving page 1. -/
theorem C1_nonNumeric_page_parameter_is_NaN :
    homeCurrentPage (some "abc") = none ∧
    homeCurrentPage (some "abc") ≠ some 1 ∧
    homeOffset (some "abc") = none ∧
    homeFetch [samplePostA] [sampleCat] (some "abc") = none :=
  ⟨by decide, by decide, by decide, by decide⟩

/-- C2: for every non-negative `totalCount` and positive `pageSize`,
the `Math.ceil(totalCount / pageSize)` computation embedded as `ceilDiv`
equals the rational ceiling of the quotient; the computed `totalPages`
is that formula at `pageSize = POSTS_PER_PAGE`; and `totalCount = 0`
gives `totalPages = 0`. -/
theorem C2_totalPages_is_ceiling (totalCount pageSize : Nat) (hp : 0 < pageSize) :
    ceilDiv totalCount pageSize = ⌈((totalCount : Nat) : ℚ) / ((pageSize : Nat) : ℚ)⌉₊ ∧
    totalPagesOf totalCount = ceilDiv totalCount POSTS_PER_PAGE ∧
    totalPagesOf 0 = 0 :=
  ⟨ceilDiv_eq_ceil totalCount pageSize hp, rfl, by decide⟩

theorem C2_witness :
    ceilDiv 25 6 = ⌈((25 : Nat) : ℚ) / ((6 : Nat) : ℚ)⌉₊ ∧
    totalPagesOf 25 = ceilDiv 25 POSTS_PER_PAGE ∧
    totalPagesOf 0 = 0 :=
  C2_totalPages_is_ceiling 25 6 (by decide)

/-- C3: whenever the computed `currentPage` is a number `n ≥ 1`, the
offset passed to the fetch is `(n - 1) * POSTS_PER_PAGE`. -/
theorem C3_offset_formula (page? : Option String) (n : Int)
    (h : homeCurrentPage page? = some n) (h1 : 1 ≤ n) :
    homeOffset page? = some ((n - 1) * (POSTS_PER_PAGE : Int)) := by
  unfold homeOffset
  rw [h, Option.map_some']

theorem C3_witness :
    homeOffset (some "3") = some (((3 : Int) - 1) * (POSTS_PER_PAGE : Int)) :=
  C3_offset_formula (some "3") 3 (by decide) (by decide)

/-- C7: the navigation control renders nothing exactly when
`totalPages ≤ 1`; otherwise its two links target `currentPage - 1` and
`currentPage + 1`, the previous link is disabled exactly when
`currentPage = 1`, and the next link is disabled exactly when its target
would exceed `totalPages`. -/
theorem C7_pagination_links (currentPage totalPages : Int) :
    (Pagination currentPage totalPages = none ↔ totalPages ≤ 1) ∧
    ∀ v : PaginationNav, Pagination currentPage totalPages = some v →
      v.previous.target = currentPage - 1 ∧
      v.next.target = currentPage + 1 ∧
      (v.previous.disabled = true ↔ currentPage = 1) ∧
      (v.next.disabled = true ↔ totalPages < currentPage + 1) := by
  unfold Pagination
  by_cases h : totalPages ≤ 1
  · simp [h]
  · rw [if_neg h]
    constructor
    · simp [h]
    · rintro v hv
      cases hv
      refine ⟨rfl, rfl, ?_, ?_⟩
      · simp
      · simp only [decide_eq_true_eq]
        omega

theorem C7_witness :
    (Pagination 2 5 = none ↔ (5 : Int) ≤ 1) ∧
    ∀ v : PaginationNav, Pagination 2 5 = some v →
      v.previous.target = 2 - 1 ∧
      v.next.target = 2 + 1 ∧
      (v.previous.disabled = true ↔ (2 : Int) = 1) ∧
      (v.next.disabled = true ↔ (5 : Int) < 2 + 1) :=
  C7_pagination_links 2 5

/-- C10: a present-but-empty page parameter is treated exactly like an
absent one — the empty string is falsy, so `page || "1"` falls back to
the default in both cases — giving `currentPage = 1` and `offset = 0`. -/
theorem C10_empty_param_like_absent :
    pageParamOrDefault (some "") = pageParamOrDefault none ∧
    homeCurrentPage (some "") = some 1 ∧
    homeOffset (some "") = some 0 ∧
    homeCurrentPage (some "") = homeCurrentPage none ∧
    homeOffset (some "") = homeOffset none :=
  ⟨rfl, by decide, by decide, rfl, rfl⟩

/-! ## List facts about the fetch -/

/-- Unfolding of `pageParamOrDefault` on a present parameter. -/
theorem pageParamOrDefault_some (s : String) :
    pageParamOrDefault (some s) = if s = "" then "1" else s := rfl

/-- The sorted published list has exactly `countPublished db` rows. -/
theorem length_sorted_published (db : List Post) :
    ((publishedPosts db).insertionSort byCreatedAtDesc).length = countPublished db :=
  List.length_insertionSort byCreatedAtDesc (publishedPosts db)

/-- A fetch whose offset is at least the number of published rows
returns no rows. -/
theorem fetchPage_eq_nil (db : List Post) (cats : List Category) (skip lim : Nat)
    (h : countPublished db ≤ skip) : fetchPage db cats skip lim = [] := by
  unfold fetchPage
  rw [List.drop_eq_nil_of_le]
  · simp
  · rw [length_sorted_published]
    exact h

/-- C4: a page parameter that parses to an integer strictly beyond
`totalPages` is served normally — `currentPage` keeps that value (no
clamp, no redirect), the fetch succeeds (`some`, no error), and it
returns the empty result set. -/
theorem C4_page_beyond_last_is_empty (db : List Post) (cats : List Category)
    (raw : String) (n : Int) (hparse : jsParseInt raw = some n)
    (hbeyond : (homeTotalPages db : Int) < n) :
    homeCurrentPage (some raw) = some n ∧
    homeFetch db cats (some raw) = some [] := by
  have hraw : raw ≠ "" := by
    intro h
    rw [h, show jsParseInt "" = none from rfl] at hparse
    simp at hparse
  have hn1 : 1 ≤ n := by
    have h0 : (0 : Int) ≤ (homeTotalPages db : Int) := Int.natCast_nonneg _
    omega
  have hcp : homeCurrentPage (some raw) = some n := by
    unfold homeCurrentPage
    rw [pageParamOrDefault_some, if_neg hraw, hparse, Option.map_some',
      max_eq_right hn1]
  refine ⟨hcp, ?_⟩
  have hoff : countPublished db ≤ ((n - 1) * (POSTS_PER_PAGE : Int)).toNat := by
    have hc : countPublished db ≤ homeTotalPages db * POSTS_PER_PAGE :=
      ceilDiv_mul_ge (countPublished db) POSTS_PER_PAGE (by decide)
    simp only [POSTS_PER_PAGE] at hc ⊢
    omega
  simp [homeFetch, homeOffset, hcp, fetchPage_eq_nil db cats _ _ hoff]

theorem C4_witness :
    homeCurrentPage (some "10") = some 10 ∧
    homeFetch [samplePostA] [sampleCat] (some "10") = some [] :=
  C4_page_beyond_last_is_empty [samplePostA] [sampleCat] "10" 10 (by decide) (by decide)

/-- C5: every row of any fetched page has `published = true` — the
`where: { published: true }` filter is applied before paging, so no
draft row can appear at any offset. -/
theorem C5_fetched_rows_published (db : List Post) (cats : List Category)
    (skip lim : Nat) (r : PostWithCategory) (hr : r ∈ fetchPage db cats skip lim) :
    r.post.published = true := by
  unfold fetchPage at hr
  rw [List.mem_map] at hr
  obtain ⟨p, hp, rfl⟩ := hr
  have h1 : p ∈ (publishedPosts db).insertionSort byCreatedAtDesc :=
    List.mem_of_mem_drop (List.mem_of_mem_take hp)
  have h2 : p ∈ publishedPosts db := (List.mem_insertionSort byCreatedAtDesc).mp h1
  exact (List.mem_filter.mp h2).2

theorem C5_witness : (⟨samplePostA, none⟩ : PostWithCategory).post.published = true :=
  C5_fetched_rows_published [samplePostA] [sampleCat] 0 6 ⟨samplePostA, none⟩ (by decide)

/-- C6: fetched rows are sorted by `createdAt` descending — every row is
at least as new as the row after it. -/
theorem C6_fetched_sorted_desc (db : List Post) (cats : List Category)
    (skip lim i : Nat) (h : i + 1 < (fetchPage db cats skip lim).length) :
    ((fetchPage db cats skip lim).get ⟨i + 1, h⟩).post.createdAt ≤
      ((fetchPage db cats skip lim).get ⟨i, Nat.lt_of_succ_lt h⟩).post.createdAt := by
  have hs : List.Pairwise byCreatedAtDesc
      ((publishedPosts db).insertionSort byCreatedAtDesc) :=
    List.sorted_insertionSort byCreatedAtDesc (publishedPosts db)
  have hdt : List.Pairwise byCreatedAtDesc
      (((((publishedPosts db).insertionSort byCreatedAtDesc).drop skip)).take lim) :=
    hs.sublist ((List.take_sublist lim _).trans (List.drop_sublist skip _))
  have hm : List.Pairwise
      (fun a b : PostWithCategory => b.post.createdAt ≤ a.post.createdAt)
      (fetchPage db cats skip lim) := by
    unfold fetchPage
    exact List.pairwise_map.mpr hdt
  exact List.pairwise_iff_get.mp hm ⟨i, Nat.lt_of_succ_lt h⟩ ⟨i + 1, h⟩
    (Nat.lt_succ_self i)

theorem C6_witness :
    ((fetchPage [samplePostA, samplePostB] [sampleCat] 0 6).get ⟨1, by decide⟩).post.createdAt ≤
      ((fetchPage [samplePostA, samplePostB] [sampleCat] 0 6).get ⟨0, by decide⟩).post.createdAt :=
  C6_fetched_sorted_desc [samplePostA, samplePostB] [sampleCat] 0 6 0 (by decide)

/-! ## Digit-prefix facts for the parser -/

/-- A decimal digit is not `parseInt` whitespace. -/
theorem isDigit_not_jsWhitespace (c : Char) (h : c.isDigit = true) :
    jsWhitespace c = false := by
  by_contra hw
  rw [Bool.not_eq_false] at hw
  unfold jsWhitespace at hw
  simp only [Bool.or_eq_true, beq_iff_eq] at hw
  rcases hw with ((h1 | h1) | h1) | h1 <;> subst h1 <;> exact absurd h (by decide)

/-- A digit character differs from any non-digit character. -/
theorem isDigit_ne (c x : Char) (h : c.isDigit = true) (hx : x.isDigit = false) :
    c ≠ x := by
  intro he
  rw [he, hx] at h
  cases h

/-- Applying `takeWhile isDigit` to an all-digit block followed by a non-digit
boundary recovers exactly the block. -/
theorem takeWhile_digits_append (ds rest : List Char)
    (hdig : ds.all Char.isDigit = true)
    (hrest : rest.head?.all (fun c => !c.isDigit) = true) :
    (ds ++ rest).takeWhile Char.isDigit = ds := by
  induction ds with
  | nil =>
    simp only [List.nil_append]
    cases rest with
    | nil => rfl
    | cons r rs =>
      have hr : r.isDigit = false := by
        simp only [List.head?, Option.all] at hrest
        simpa using hrest
      rw [List.takeWhile_cons, if_neg (by simp [hr])]
  | cons d ds ih =>
    rw [List.all_cons, Bool.and_eq_true] at hdig
    rw [List.cons_append, List.takeWhile_cons, if_pos hdig.1, ih hdig.2]

/-- C8: a raw page parameter whose leading characters are a non-empty
digit block with value `n ≥ 1`, followed by a non-digit boundary (for
example `"3abc"`), is accepted by `parseInt` with value `n`, and
`currentPage = n`. -/
theorem C8_numeric_prefix_accepted (ds rest : List Char) (hne : ds ≠ [])
    (hdig : ds.all Char.isDigit = true)
    (hrest : rest.head?.all (fun c => !c.isDigit) = true)
    (hpos : 1 ≤ digitsVal ds) :
    jsParseInt (String.mk (ds ++ rest)) = some ((digitsVal ds : Nat) : Int) ∧
    homeCurrentPage (some (String.mk (ds ++ rest))) = some ((digitsVal ds : Nat) : Int) := by
  obtain ⟨d, ds', rfl⟩ : ∃ d ds', ds = d :: ds' := by
    cases ds with
    | nil => exact absurd rfl hne
    | cons d ds' => exact ⟨d, ds', rfl⟩
  have hd : d.isDigit = true := by
    rw [List.all_cons, Bool.and_eq_true] at hdig
    exact hdig.1
  have hparse : jsParseInt (String.mk ((d :: ds') ++ rest)) =
      some ((digitsVal (d :: ds') : Nat) : Int) := by
    unfold jsParseInt
    rw [show (String.mk ((d :: ds') ++ rest)).data = d :: (ds' ++ rest) from rfl]
    rw [List.dropWhile_cons, if_neg (by simp [isDigit_not_jsWhitespace d hd])]
    simp only [jsParseIntChars]
    rw [if_neg (isDigit_ne d '-' hd (by decide)),
      if_neg (isDigit_ne d '+' hd (by decide))]
    unfold signedDigits
    rw [← List.cons_append, takeWhile_digits_append (d :: ds') rest hdig hrest]
    rw [if_neg hne, Int.one_mul]
  refine ⟨hparse, ?_⟩
  have hsne : String.mk ((d :: ds') ++ rest) ≠ "" := by
    intro h
    have hdata : (d :: ds') ++ rest = ([] : List Char) := congrArg String.data h
    simp at hdata
  unfold homeCurrentPage
  rw [pageParamOrDefault_some, if_neg hsne, hparse, Option.map_some',
    max_eq_right (by exact_mod_cast hpos)]

theorem C8_witness :
    jsParseInt (String.mk ([ '3' ] ++ [ 'a', 'b', 'c' ])) =
      some ((digitsVal [ '3' ] : Nat) : Int) ∧
    homeCurrentPage (some (String.mk ([ '3' ] ++ [ 'a', 'b', 'c' ]))) =
      some ((digitsVal [ '3' ] : Nat) : Int) :=
  C8_numeric_prefix_accepted [ '3' ] [ 'a', 'b', 'c' ]
    (by decide) (by decide) (by decide) (by decide)

/-- C9: on a non-empty fetched page the summary line shows
`firstPost = (currentPage - 1) * POSTS_PER_PAGE + 1`,
`lastPost = firstPost + posts.length - 1`, the total post count, and
the singular noun exactly when `totalPosts = 1`. -/
theorem C9_summary_line (posts : List PostWithCategory) (currentPage totalPages : Int)
    (totalPosts : Nat) (hne : posts ≠ []) :
    ∃ s : Summary, ∃ nav : Option PaginationNav,
      PostList posts currentPage totalPages totalPosts =
        PostListView.grid s posts nav ∧
      s.firstPost = (currentPage - 1) * (POSTS_PER_PAGE : Int) + 1 ∧
      s.lastPost = s.firstPost + posts.length - 1 ∧
      s.totalPosts = totalPosts ∧
      (s.noun = "post" ↔ totalPosts = 1) := by
  unfold PostList
  rw [if_neg (by simp [List.length_eq_zero, hne])]
  refine ⟨_, _, rfl, rfl, rfl, rfl, ?_⟩
  show (if totalPosts = 1 then "post" else "posts") = "post" ↔ totalPosts = 1
  by_cases h : totalPosts = 1
  · rw [if_pos h]
    exact iff_of_true rfl h
  · rw [if_neg h]
    exact iff_of_false (by decide) h

theorem C9_witness :
    ∃ s : Summary, ∃ nav : Option PaginationNav,
      PostList [⟨samplePostA, none⟩] 1 1 1 =
        PostListView.grid s [⟨samplePostA, none⟩] nav ∧
      s.firstPost = ((1 : Int) - 1) * (POSTS_PER_PAGE : Int) + 1 ∧
      s.lastPost = s.firstPost + ([⟨samplePostA, none⟩] : List PostWithCategory).length - 1 ∧
      s.totalPosts = 1 ∧
      (s.noun = "post" ↔ (1 : Nat) = 1) :=
  C9_summary_line [⟨samplePostA, none⟩] 1 1 1 (by decide)
